import Mathlib

/-
Shallow embedding of somding/mart-flyers (src/script.js).

The repository holds two iterations of the same page script, separated by a
document marker:
  * Variant A (primary, script.js lines 1-265): fetch-based data load,
    idle-time cover preloading, history-integrated modal close, and a
    "no past flyer" placeholder message when the past image list is empty.
  * Variant B (embedded-data, script.js lines 266-454): an embedded `marts`
    constant and a fallback that substitutes the current flyer images when
    the past list is empty.

DOM effects are modelled as pure state transformers: the flyer container is a
list of nodes, CSS classes are booleans, the history stack is a list of the
pushed state objects' `modal` flags.  A `setTimeout`-delayed step is folded
into the function that schedules it (the settled state after the timer fires).
JavaScript crashes (property access on null/undefined) are modelled with
`Option`: `none` is a thrown TypeError.
-/

namespace MartFlyers

/-- A flyer set: `{ title, images, type }`.  `images` is `Option` because the
code guards against the field being absent (`!flyerData.images`). -/
structure FlyerSet where
  title : String
  images : Option (List String)
  type : String
deriving DecidableEq

/-- The `flyers` object of a mart record: `{ current, past }`. -/
structure FlyerPair where
  current : FlyerSet
  past : FlyerSet
deriving DecidableEq

/-- A mart record: `{ id, name, description, logo, flyers }`. -/
structure MartRecord where
  id : String
  name : String
  description : String
  logo : String
  flyers : FlyerPair
deriving DecidableEq

/-- The tab argument of `switchTab` ('current' or 'past'; the code treats any
non-'current' value as the past branch, and only these two are ever passed). -/
inductive Tab
  | current
  | past
deriving DecidableEq

/-- An `<img>` element as configured by the flyer renderers: `src`, `alt`,
`className`, the `loading` attribute (unset in Variant B), the
`fetchpriority` attribute, an inline border style (set by Variant A's error
handler), and whether the `onerror` handler is still attached (it nulls
itself on first fire). -/
structure ImgNode where
  src : String
  alt : String
  className : String
  loading : Option String
  fetchpriority : Option String
  borderStyle : Option String
  onerrorActive : Bool
deriving DecidableEq

/-- A child of the flyer container: an image element, an innerHTML-assigned
message block (Variant A), or the `<p>` message element Variant B builds
(textContent, style.color, style.marginBottom). -/
inductive FlyerNode
  | img (node : ImgNode)
  | html (s : String)
  | para (text color marginBottom : String)
deriving DecidableEq

/-- The source of a flyer-container node when it is an image element. -/
def nodeSrc : FlyerNode → Option String
  | .img n => some n.src
  | .html _ => none
  | .para _ _ _ => none

/-- State touched by `switchTab`: the two tab buttons' `active` classes, the
flyer container's children, and its scroll position. -/
structure TabState where
  tabCurrentActive : Bool
  tabPastActive : Bool
  flyerBody : List FlyerNode
  scrollTop : Nat
deriving DecidableEq

/-- The guard `!flyerData.images || flyerData.images.length === 0`. -/
def imagesEmpty : Option (List String) → Bool
  | none => true
  | some l => l.isEmpty

/-- The flyer set `switchTab` reads for a tab value
(`currentMart.flyers.current` / `currentMart.flyers.past`). -/
def selectedFlyers (m : MartRecord) : Tab → FlyerSet
  | .current => m.flyers.current
  | .past => m.flyers.past

/-- Variant A, script.js 160-164: the innerHTML assigned when the past flyer
set is empty (whitespace of the template literal condensed). -/
def noPastMsgA : String :=
  "<div style=\"padding: 40px; color: #888;\"><p>지난 전단지 데이터가 없습니다.</p><p style=\"font-size:0.9em; margin-top:10px;\">최신 전단지를 확인해주세요.</p></div>"

/-- Variant A, script.js 205: the innerHTML assigned when the selected flyer
set has no images. -/
def noImagesMsgA : String :=
  "<div style=\"padding:50px; color:#888;\">등록된 전단지 이미지가 없습니다.</div>"

/-- Variant A, script.js 178-200: one image element of the flyer body.
`index === 0` gets eager loading and high fetch priority, the rest lazy. -/
def renderImgA (name : String) (index : Nat) (src : String) : ImgNode :=
  { src := src
  , alt := name ++ " 전단지 Page " ++ toString (index + 1)
  , className := "flyer-img"
  , loading := some (if index = 0 then "eager" else "lazy")
  , fetchpriority := if index = 0 then some "high" else none
  , borderStyle := none
  , onerrorActive := true }

/-- Variant A, script.js 177-203: the `forEach` that appends one `<img>` per
entry, carrying the running index. -/
def renderImagesA (name : String) : Nat → List String → List FlyerNode
  | _, [] => []
  | i, src :: rest => .img (renderImgA name i src) :: renderImagesA name (i + 1) rest

/-- Variant A, script.js 169-206: clear the container, reset scroll, then
either render every image or the "no images" message. -/
def renderBodyA (m : MartRecord) (fd : FlyerSet) (st : TabState) : TabState :=
  let st := { st with flyerBody := [], scrollTop := 0 }
  match fd.images with
  | some imgs =>
      if imgs.isEmpty then { st with flyerBody := [.html noImagesMsgA] }
      else { st with flyerBody := renderImagesA m.name 0 imgs }
  | none => { st with flyerBody := [.html noImagesMsgA] }

/-- Variant A `switchTab` (script.js 144-207), for an already dereferenced
`currentMart`.  The past branch returns early with the placeholder message
when the past image list is missing or empty. -/
def switchTabA (m : MartRecord) (tab : Tab) (st : TabState) : TabState :=
  match tab with
  | .current =>
      let st := { st with tabCurrentActive := true, tabPastActive := false }
      renderBodyA m m.flyers.current st
  | .past =>
      let st := { st with tabCurrentActive := false, tabPastActive := true }
      if imagesEmpty m.flyers.past.images then
        { st with flyerBody := [.html noPastMsgA] }
      else
        renderBodyA m m.flyers.past st

/-- Variant A `switchTab` as invoked by the tab click listeners
(script.js 214-215): `currentMart.flyers` is dereferenced with no null
guard, so a click before any `openModal` throws (modelled as `none`). -/
def switchTabEntryA (currentMart : Option MartRecord) (tab : Tab) (st : TabState) :
    Option TabState :=
  match currentMart with
  | none => none
  | some m => some (switchTabA m tab st)

/-- Variant B, script.js 399: the fallback note's textContent. -/
def fallbackMsgB : String := "지난 전단지가 없어 최신 전단지를 보여드립니다."

/-- Variant B, script.js 411-420: one image element (no loading attribute,
generic alt text). -/
def renderImgB (src : String) : ImgNode :=
  { src := src
  , alt := "전단지 이미지"
  , className := "flyer-img"
  , loading := none
  , fetchpriority := none
  , borderStyle := none
  , onerrorActive := true }

/-- Variant B, script.js 406-423: clear the container, then
`flyerData.images.forEach(...)`.  When `images` is absent the `forEach`
call throws: `none`. -/
def renderBodyB (fd : FlyerSet) (st : TabState) : Option TabState :=
  let st := { st with flyerBody := [] }
  match fd.images with
  | none => none
  | some imgs => some { st with flyerBody := imgs.map (fun src => .img (renderImgB src)) }

/-- Variant B `switchTab` (script.js 383-424).  When the past list is empty
the current set is substituted and the note `<p>` is appended — but it is
appended before `flyerContainer.innerHTML = ''` runs, so the clear erases
it. -/
def switchTabB (m : MartRecord) (tab : Tab) (st : TabState) : Option TabState :=
  match tab with
  | .current =>
      let st := { st with tabCurrentActive := true, tabPastActive := false }
      renderBodyB m.flyers.current st
  | .past =>
      let st := { st with tabCurrentActive := false, tabPastActive := true }
      if imagesEmpty m.flyers.past.images then
        let st := { st with flyerBody := st.flyerBody ++ [.para fallbackMsgB "#888" "10px"] }
        renderBodyB m.flyers.current st
      else
        renderBodyB m.flyers.past st

/-- Variant A's error placeholder graphic (script.js 198). -/
def placeholderSrcA : String :=
  "https://placehold.co/600x400/f5f5f7/888888?text=Image+Not+Found"

/-- Variant B's error placeholder graphic (script.js 419). -/
def placeholderSrcB : String :=
  "https://placehold.co/600x400?text=이미지+로딩+실패"

/-- Variant A's image `onerror` handler (script.js 194-200): on the first
load failure it detaches itself, swaps the source to the placeholder
graphic, and sets a dashed border. -/
def imgErrorA (n : ImgNode) : ImgNode :=
  if n.onerrorActive then
    { n with
      onerrorActive := false
    , src := placeholderSrcA
    , borderStyle := some "1px dashed #ccc" }
  else n

/-- Variant B's image `onerror` handler (script.js 417-420): detach, swap to
the placeholder (no border styling). -/
def imgErrorB (n : ImgNode) : ImgNode :=
  if n.onerrorActive then
    { n with
      onerrorActive := false
    , src := placeholderSrcB }
  else n

/-- A load-failure event delivered to the child at `i` of the flyer body:
only that image's own handler runs; non-image nodes have no handler. -/
def failAt (handler : ImgNode → ImgNode) : Nat → List FlyerNode → List FlyerNode
  | _, [] => []
  | 0, .img n :: rest => .img (handler n) :: rest
  | 0, n :: rest => n :: rest
  | i + 1, n :: rest => n :: failAt handler i rest

/-- The preloader (script.js 45-68): for each mart, when
`mart.flyers?.current?.images` exists and is non-empty, one off-DOM
`new Image()` load of `images[0]` is started.  Both the
`requestIdleCallback` branch and the `setTimeout` fallback run this same
loop; the result is the ordered list of preloaded sources (the `Image`
objects are never attached to the DOM). -/
def preloadCovers (marts : List MartRecord) : List String :=
  marts.foldl
    (fun acc mart =>
      match mart.flyers.current.images with
      | some (img0 :: _) => acc ++ [img0]
      | some [] => acc
      | none => acc)
    []

/-- The name html of a card or modal title: either the raw name string or two
span elements, each carrying a class and its (trimmed) text. -/
inductive NameHtml
  | raw (s : String)
  | spans (cls1 txt1 cls2 txt2 : String)
deriving DecidableEq

/-- One successful attempt of `/([^(]+)\s*\(([^)]+)\)/` anchored at the head
of `cs`: `[^(]+` greedily takes the run of non-'(' characters (which must be
non-empty), `\s*` then matches the empty string (the next character is '('
or the attempt fails — whitespace is itself a non-'(' character, so the
greedy first group already consumed it), `\(` consumes the parenthesis,
`[^)]+` greedily takes a non-empty run of non-')' characters, and `\)`
must find the closing parenthesis. -/
def matchAt (cs : List Char) : Option (List Char × List Char) :=
  match cs with
  | [] => none
  | c :: _ =>
    if c = '(' then none
    else
      match cs.dropWhile (fun a => a != '(') with
      | [] => none
      | _ :: rest =>
        match rest.takeWhile (fun a => a != ')'), rest.dropWhile (fun a => a != ')') with
        | [], _ => none
        | _, [] => none
        | g2, _ :: _ => some (cs.takeWhile (fun a => a != '('), g2)

/-- JavaScript `String.prototype.match` with a non-global regex: the leftmost
position at which the pattern matches wins. -/
def jsMatchL : List Char → Option (List Char × List Char)
  | [] => none
  | c :: rest =>
    match matchAt (c :: rest) with
    | some r => some r
    | none => jsMatchL rest

/-- The call `mart.name.match(/([^(]+)\s*\(([^)]+)\)/)` reduced to its two capture
groups (script.js 85 and 121). -/
def jsMatch (s : String) : Option (String × String) :=
  (jsMatchL s.data).map fun p => (String.mk p.1, String.mk p.2)

/-- The card renderer's name heading (script.js 83-90): split into
`name-ko` / `name-en` spans with trimmed capture groups when the regex
matches, the raw name otherwise. -/
def cardNameHtml (name : String) : NameHtml :=
  match jsMatch name with
  | some (a, b) => .spans "name-ko" a.trim "name-en" b.trim
  | none => .raw name

/-- The modal title (script.js 120-125): same split with the second span
de-emphasized under class `name-en-modal`. -/
def modalNameHtml (name : String) : NameHtml :=
  match jsMatch name with
  | some (a, b) => .spans "name-ko" a.trim "name-en-modal" b.trim
  | none => .raw name

/-- One mart card as assembled by `renderMarts` (script.js 77-110). -/
structure Card where
  nameHtml : NameHtml
  logo : String
  logoAlt : String
  description : String
deriving DecidableEq

/-- Function `renderMarts` (script.js 73-111): the card list is cleared and rebuilt,
one card per mart, in collection order. -/
def renderMarts (marts : List MartRecord) : List Card :=
  marts.map fun m =>
    { nameHtml := cardNameHtml m.name
    , logo := m.logo
    , logoAlt := m.name
    , description := m.description }

/-- The content of the `#mart-list` container: either rendered cards or an
innerHTML-assigned message. -/
inductive MartListContent
  | cards (cs : List Card)
  | message (s : String)
deriving DecidableEq

/-- The outcome of `fetch('data.json')` followed by `response.json()`:
success with parsed data, a non-OK response (the chain throws at line 28),
or a JSON parse failure (the `response.json()` promise rejects). -/
inductive FetchOutcome
  | ok (data : List MartRecord)
  | httpError
  | parseError
deriving DecidableEq

/-- The failure message innerHTML (script.js 39). -/
def loadFailureMsg : String :=
  "<p style=\"text-align:center; padding:50px;\">데이터를 불러오는 데 실패했습니다.<br>잠시 후 다시 시도해주세요.</p>"

/-- The data-load chain (script.js 26-40): on success render the cards and
schedule the cover preloads; any failure lands in the single `catch`, which
replaces the list content with the fixed message and schedules nothing.
Result: the `#mart-list` content and the preloaded sources. -/
def handleFetch (r : FetchOutcome) : MartListContent × List String :=
  match r with
  | .ok data => (.cards (renderMarts data), preloadCovers data)
  | .httpError => (.message loadFailureMsg, [])
  | .parseError => (.message loadFailureMsg, [])

/-- State touched by the modal open/close logic: the modal's `show` and
`hidden` classes, the flyer container's children, `document.body.style.overflow`,
and the history stack (head = current entry, each entry reduced to its
state object's `modal` flag; the initial entry has a null state). -/
structure ModalState where
  showClass : Bool
  hiddenClass : Bool
  flyerBody : List FlyerNode
  bodyOverflow : String
  history : List Bool
deriving DecidableEq

/-- Function `hideModalUI` (script.js 218-226), settled: remove `show`, restore the
body overflow, and — once the 300 ms timer fires — add `hidden` and clear
the flyer container. -/
def hideModalUI (st : ModalState) : ModalState :=
  { st with
    showClass := false
  , hiddenClass := true
  , flyerBody := []
  , bodyOverflow := "" }

/-- The `popstate` listener (script.js 240-245): hide the modal when it is
shown, otherwise do nothing. -/
def popstateHandler (st : ModalState) : ModalState :=
  if st.showClass then hideModalUI st else st

/-- Effect of `history.back()` or the browser back button: pop the current history
entry and fire `popstate`. -/
def historyBack (st : ModalState) : ModalState :=
  popstateHandler { st with history := st.history.tail }

/-- Function `closeModal` (script.js 229-237): when the current history state carries
the modal marker, go back and let `popstate` do the hiding; otherwise hide
directly. -/
def closeModal (st : ModalState) : ModalState :=
  match st.history.head? with
  | some true => historyBack st
  | _ => hideModalUI st

/-- Close-button click (script.js 248-250). -/
def closeButtonClick (st : ModalState) : ModalState :=
  closeModal st

/-- The modal's click listener (script.js 253-257): close only when the click
target is the modal root itself. -/
def backdropClick (targetIsModal : Bool) (st : ModalState) : ModalState :=
  if targetIsModal then closeModal st else st

/-- The keydown listener (script.js 260-264) receiving an Escape key press:
close only while the modal is shown. -/
def escapeKeydown (st : ModalState) : ModalState :=
  if st.showClass then closeModal st else st

/-- A mart record with only the fields the flyer logic reads, for concrete
instances. -/
def mkMart (name : String) (cur past : Option (List String)) : MartRecord :=
  { id := ""
  , name := name
  , description := ""
  , logo := ""
  , flyers :=
    { current := { title := "최신 전단지 보기", images := cur, type := "image" }
    , past := { title := "지난 전단지", images := past, type := "image" } } }

/-- The image list of the embedded emart record's current flyer set
(script.js 275-280). -/
def emartCurrentImages : List String :=
  [ "./images/emart_01.jpg?v=2", "./images/emart_02.jpg?v=2"
  , "./images/emart_03.jpg?v=2", "./images/emart_04.jpg?v=2"
  , "./images/emart_05.jpg?v=2", "./images/emart_06.jpg?v=2"
  , "./images/emart_07.jpg?v=2", "./images/emart_08.jpg?v=2"
  , "./images/emart_09.jpg?v=2", "./images/emart_10.jpg?v=2"
  , "./images/emart_11.jpg?v=2", "./images/emart_12.jpg?v=2"
  , "./images/emart_13.jpg?v=2", "./images/emart_14.jpg?v=2" ]

/-- The first record of the embedded `marts` constant (script.js 267-289). -/
def emart : MartRecord :=
  { id := "emart"
  , name := "이마트 (E-mart)"
  , description := "대한민국 1등 할인점, 이마트의 최신 전단지를 확인하세요."
  , logo := "./images/emart_logo.svg"
  , flyers :=
    { current :=
      { title := "최신 전단지 보기"
      , images := some emartCurrentImages
      , type := "image" }
    , past := { title := "지난 전단지", images := some [], type := "image" } } }

/-- A flyer-container state before any render, for concrete instances. -/
def initTabState : TabState :=
  { tabCurrentActive := true
  , tabPastActive := false
  , flyerBody := []
  , scrollTop := 0 }

/-- Whether a flyer-container node is the Variant B fallback note. -/
def isFallbackNote : FlyerNode → Bool
  | .para _ _ _ => true
  | _ => false

/-- The converged closed-modal UI state the spec describes: `hidden` class
present, `show` class absent, flyer body empty, background scroll restored. -/
def modalClosedUI (st : ModalState) : Prop :=
  st.hiddenClass = true ∧ st.showClass = false
    ∧ st.flyerBody = [] ∧ st.bodyOverflow = ""

/-- A mart with a 3-image current flyer set, for concrete instances. -/
def sampleMart3 : MartRecord :=
  mkMart "테스트마트" (some ["a.jpg", "b.jpg", "c.jpg"]) (some [])

/-- A modal state as `openModal` leaves it: shown, a rendered body, scroll
locked, the modal history entry pushed on the initial entry. -/
def openSampleState : ModalState :=
  { showClass := true
  , hiddenClass := false
  , flyerBody := [.img (renderImgB "a.jpg")]
  , bodyOverflow := "hidden"
  , history := [true, false] }

/-! ## Helper lemmas -/

theorem renderImagesA_map_nodeSrc (name : String) (imgs : List String) (i : Nat) :
    (renderImagesA name i imgs).map nodeSrc = imgs.map some := by
  induction imgs generalizing i with
  | nil => rfl
  | cons src rest ih => simp [renderImagesA, nodeSrc, renderImgA, ih]

theorem renderImagesA_length (name : String) (imgs : List String) (i : Nat) :
    (renderImagesA name i imgs).length = imgs.length := by
  induction imgs generalizing i with
  | nil => rfl
  | cons src rest ih => simp [renderImagesA, ih]

theorem switchTabA_flyerBody (m : MartRecord) (t : Tab) (st : TabState)
    (imgs : List String) (hsel : (selectedFlyers m t).images = some imgs)
    (hne : imgs ≠ []) :
    (switchTabA m t st).flyerBody = renderImagesA m.name 0 imgs := by
  obtain ⟨a, as, rfl⟩ := List.exists_cons_of_ne_nil hne
  cases t with
  | current =>
      simp only [selectedFlyers] at hsel
      simp [switchTabA, renderBodyA, hsel]
  | past =>
      simp only [selectedFlyers] at hsel
      simp [switchTabA, renderBodyA, imagesEmpty, hsel]

theorem switchTabB_result (m : MartRecord) (t : Tab) (st : TabState)
    (imgs : List String) (hsel : (selectedFlyers m t).images = some imgs)
    (hne : imgs ≠ []) :
    ∃ stB, switchTabB m t st = some stB
      ∧ stB.flyerBody = imgs.map (fun src => .img (renderImgB src)) := by
  obtain ⟨a, as, rfl⟩ := List.exists_cons_of_ne_nil hne
  cases t with
  | current =>
      simp only [selectedFlyers] at hsel
      have h : switchTabB m Tab.current st = some
          { st with
            tabCurrentActive := true
          , tabPastActive := false
          , flyerBody := (a :: as).map (fun src => FlyerNode.img (renderImgB src)) } := by
        simp [switchTabB, renderBodyB, hsel]
      exact ⟨_, h, rfl⟩
  | past =>
      simp only [selectedFlyers] at hsel
      have h : switchTabB m Tab.past st = some
          { st with
            tabCurrentActive := false
          , tabPastActive := true
          , flyerBody := (a :: as).map (fun src => FlyerNode.img (renderImgB src)) } := by
        simp [switchTabB, renderBodyB, imagesEmpty, hsel]
      exact ⟨_, h, rfl⟩

/-! ## Claims -/

/-- Claim C1: for every FlyerSet with N images (N > 0), calling `switchTab`
for that set's tab renders exactly N image elements into the flyer body, in
the same order as the input image sequence (image i gets source images[i]) —
in both the primary variant and the embedded-data variant. -/
theorem switchTab_renders_image_sequence (m : MartRecord) (t : Tab)
    (st st' : TabState) (imgs : List String)
    (hsel : (selectedFlyers m t).images = some imgs) (hne : imgs ≠ []) :
    ((switchTabA m t st).flyerBody.map nodeSrc = imgs.map some
      ∧ (switchTabA m t st).flyerBody.length = imgs.length)
    ∧ ∃ stB, switchTabB m t st' = some stB
        ∧ stB.flyerBody.map nodeSrc = imgs.map some
        ∧ stB.flyerBody.length = imgs.length := by
  refine ⟨⟨?_, ?_⟩, ?_⟩
  · rw [switchTabA_flyerBody m t st imgs hsel hne, renderImagesA_map_nodeSrc]
  · rw [switchTabA_flyerBody m t st imgs hsel hne, renderImagesA_length]
  · obtain ⟨stB, hB, hbody⟩ := switchTabB_result m t st' imgs hsel hne
    exact ⟨stB, hB, by simp [hbody, nodeSrc, renderImgB], by simp [hbody]⟩

/-- Witness for C1: the embedded emart record's current set has 14 images and
the conclusion holds at it. -/
theorem switchTab_renders_image_sequence_witness :
    (selectedFlyers emart Tab.current).images = some emartCurrentImages
    ∧ emartCurrentImages ≠ []
    ∧ (((switchTabA emart Tab.current initTabState).flyerBody.map nodeSrc
          = emartCurrentImages.map some
        ∧ (switchTabA emart Tab.current initTabState).flyerBody.length
          = emartCurrentImages.length)
      ∧ ∃ stB, switchTabB emart Tab.current initTabState = some stB
          ∧ stB.flyerBody.map nodeSrc = emartCurrentImages.map some
          ∧ stB.flyerBody.length = emartCurrentImages.length) :=
  ⟨rfl, by decide,
    switchTab_renders_image_sequence emart Tab.current initTabState initTabState
      emartCurrentImages rfl (by decide)⟩

/-- Claim C3: in the primary variant, when the past tab is selected and the
past FlyerSet's image list is empty or missing, the flyer body is set to the
informational placeholder message and the function returns without rendering
any image elements. -/
theorem pastEmpty_renders_placeholder (m : MartRecord) (st : TabState)
    (h : imagesEmpty m.flyers.past.images = true) :
    (switchTabA m Tab.past st).flyerBody = [.html noPastMsgA]
    ∧ ∀ n ∈ (switchTabA m Tab.past st).flyerBody, nodeSrc n = none := by
  have hbody : (switchTabA m Tab.past st).flyerBody = [.html noPastMsgA] := by
    simp [switchTabA, h]
  refine ⟨hbody, ?_⟩
  intro n hn
  rw [hbody] at hn
  simp only [List.mem_singleton] at hn
  subst hn
  rfl

/-- Witness for C3: the embedded emart record has an empty past image list,
and selecting its past tab yields exactly the placeholder message. -/
theorem pastEmpty_renders_placeholder_witness :
    imagesEmpty emart.flyers.past.images = true
    ∧ ((switchTabA emart Tab.past initTabState).flyerBody = [.html noPastMsgA]
      ∧ ∀ n ∈ (switchTabA emart Tab.past initTabState).flyerBody, nodeSrc n = none) :=
  ⟨rfl, pastEmpty_renders_placeholder emart initTabState rfl⟩

/-- Claim C10: the tab click handlers call `switchTab`, which dereferences
`currentMart.flyers` with no null guard: with `currentMart` still null (no
card clicked yet, its initial value) the call throws, and with `currentMart`
set by `openModal` the call always succeeds. -/
theorem switchTab_requires_currentMart :
    (∀ (t : Tab) (st : TabState), switchTabEntryA none t st = none)
    ∧ ∀ (m : MartRecord) (t : Tab) (st : TabState),
        switchTabEntryA (some m) t st = some (switchTabA m t st) :=
  ⟨fun _ _ => rfl, fun _ _ _ => rfl⟩

theorem switchTabA_flyerBody_const (m : MartRecord) (t : Tab) (st st' : TabState) :
    (switchTabA m t st).flyerBody = (switchTabA m t st').flyerBody := by
  cases t with
  | current =>
      cases h : m.flyers.current.images with
      | none => simp [switchTabA, renderBodyA, h]
      | some imgs => cases imgs <;> simp [switchTabA, renderBodyA, h]
  | past =>
      cases h : m.flyers.past.images with
      | none => simp [switchTabA, renderBodyA, imagesEmpty, h]
      | some imgs => cases imgs <;> simp [switchTabA, renderBodyA, imagesEmpty, h]

theorem switchTabB_map_flyerBody_const (m : MartRecord) (t : Tab) (st st' : TabState) :
    (switchTabB m t st).map TabState.flyerBody
      = (switchTabB m t st').map TabState.flyerBody := by
  cases t with
  | current =>
      cases h : m.flyers.current.images <;> simp [switchTabB, renderBodyB, h]
  | past =>
      cases hp : m.flyers.past.images with
      | none =>
          cases h : m.flyers.current.images <;>
            simp [switchTabB, renderBodyB, imagesEmpty, hp, h]
      | some l =>
          cases l with
          | nil =>
              cases h : m.flyers.current.images <;>
                simp [switchTabB, renderBodyB, imagesEmpty, hp, h]
          | cons a as => simp [switchTabB, renderBodyB, imagesEmpty, hp]

/-- Claim C6: for every active mart and tab value, calling `switchTab` twice
in a row with the same tab leaves the flyer body with the same content as
calling it once — the container is cleared (or wholly replaced) before each
render, so nothing accumulates.  Holds in both variants (in the embedded-data
variant the second call also succeeds whenever the first did, with the same
body). -/
theorem switchTab_content_idempotent (m : MartRecord) (t : Tab) (st : TabState) :
    (switchTabA m t (switchTabA m t st)).flyerBody = (switchTabA m t st).flyerBody
    ∧ ((switchTabB m t st).bind (switchTabB m t)).map TabState.flyerBody
        = (switchTabB m t st).map TabState.flyerBody := by
  refine ⟨switchTabA_flyerBody_const m t _ st, ?_⟩
  cases hB : switchTabB m t st with
  | none => rfl
  | some st₁ =>
      have h := switchTabB_map_flyerBody_const m t st₁ st
      rw [hB] at h
      simpa using h

/-- Claim C7: when the data fetch fails — non-OK response or JSON parse
failure — the error is caught, the card-list container is replaced with the
fixed failure message, no cards are rendered, and nothing further (no retry,
no preloads) is scheduled. -/
theorem fetch_failure_shows_message :
    (handleFetch .httpError = (.message loadFailureMsg, [])
      ∧ handleFetch .parseError = (.message loadFailureMsg, []))
    ∧ ∀ (cs : List Card) (ps : List String),
        handleFetch .httpError ≠ (.cards cs, ps)
        ∧ handleFetch .parseError ≠ (.cards cs, ps) := by
  refine ⟨⟨rfl, rfl⟩, fun cs ps => ⟨?_, ?_⟩⟩ <;> simp [handleFetch]

theorem preload_foldl_characterisation (marts : List MartRecord) (acc : List String) :
    marts.foldl
      (fun acc mart =>
        match mart.flyers.current.images with
        | some (img0 :: _) => acc ++ [img0]
        | some [] => acc
        | none => acc)
      acc
    = acc ++ marts.filterMap (fun m => m.flyers.current.images.bind List.head?) := by
  induction marts generalizing acc with
  | nil => simp
  | cons m rest ih =>
      cases him : m.flyers.current.images with
      | none => simp [List.foldl_cons, him, ih, List.filterMap_cons]
      | some l =>
          cases l with
          | nil => simp [List.foldl_cons, him, ih, List.filterMap_cons]
          | cons a as => simp [List.foldl_cons, him, ih, List.filterMap_cons]

/-- Claim C9: after the data load, the preloader creates exactly one off-DOM
image load per mart whose `flyers.current.images` exists and is non-empty,
with source the first element of that list, and nothing else — the preload
list is precisely the marts' first current images, in collection order. -/
theorem preloadCovers_first_image_only (marts : List MartRecord) :
    preloadCovers marts
      = marts.filterMap (fun m => m.flyers.current.images.bind List.head?) := by
  simpa using preload_foldl_characterisation marts []

/-- Claim C8: for a 3-image flyer set whose second image fails to load, the
body still has 3 elements; position 2 shows the placeholder source (with the
dashed broken-image border in the primary variant), while positions 1 and 3
are completely unaffected.  Both variants. -/
theorem broken_image_isolated (m : MartRecord) (t : Tab) (st st' : TabState)
    (a b c : String) (hsel : (selectedFlyers m t).images = some [a, b, c]) :
    (failAt imgErrorA 1 (switchTabA m t st).flyerBody
        = [ .img (renderImgA m.name 0 a)
          , .img { renderImgA m.name 1 b with
                    onerrorActive := false
                  , src := placeholderSrcA
                  , borderStyle := some "1px dashed #ccc" }
          , .img (renderImgA m.name 2 c) ]
      ∧ (failAt imgErrorA 1 (switchTabA m t st).flyerBody).length = 3)
    ∧ ∃ stB, switchTabB m t st' = some stB
        ∧ failAt imgErrorB 1 stB.flyerBody
            = [ .img (renderImgB a)
              , .img { renderImgB b with onerrorActive := false, src := placeholderSrcB }
              , .img (renderImgB c) ] := by
  have hbody := switchTabA_flyerBody m t st [a, b, c] hsel (by simp)
  obtain ⟨stB, hB, hbodyB⟩ := switchTabB_result m t st' [a, b, c] hsel (by simp)
  refine ⟨⟨?_, ?_⟩, stB, hB, ?_⟩
  · rw [hbody]
    simp [renderImagesA, failAt, imgErrorA, renderImgA]
  · rw [hbody]
    simp [renderImagesA, failAt]
  · rw [hbodyB]
    simp [failAt, imgErrorB, renderImgB]

/-- Witness for C8: a concrete mart with a 3-image current set. -/
theorem broken_image_isolated_witness :
    (selectedFlyers sampleMart3 Tab.current).images = some ["a.jpg", "b.jpg", "c.jpg"]
    ∧ ((failAt imgErrorA 1 (switchTabA sampleMart3 Tab.current initTabState).flyerBody
          = [ .img (renderImgA sampleMart3.name 0 "a.jpg")
            , .img { renderImgA sampleMart3.name 1 "b.jpg" with
                      onerrorActive := false
                    , src := placeholderSrcA
                    , borderStyle := some "1px dashed #ccc" }
            , .img (renderImgA sampleMart3.name 2 "c.jpg") ]
        ∧ (failAt imgErrorA 1
            (switchTabA sampleMart3 Tab.current initTabState).flyerBody).length = 3)
      ∧ ∃ stB, switchTabB sampleMart3 Tab.current initTabState = some stB
          ∧ failAt imgErrorB 1 stB.flyerBody
              = [ .img (renderImgB "a.jpg")
                , .img { renderImgB "b.jpg" with
                          onerrorActive := false
                        , src := placeholderSrcB }
                , .img (renderImgB "c.jpg") ]) :=
  ⟨rfl, broken_image_isolated sampleMart3 Tab.current initTabState initTabState
      "a.jpg" "b.jpg" "c.jpg" rfl⟩

/-- Claim C2 fails on the code: at the embedded emart record (whose past
image list is empty), selecting the past tab in the embedded-data variant
renders the 14 current images with no informational note anywhere in the
body — the note `<p>` is appended at script.js 402, but
`flyerContainer.innerHTML = ''` at script.js 407 runs afterwards and erases
it, so lines 398-402 can never have a visible effect. -/
theorem fallbackNote_erased_at_emart :
    (switchTabB emart Tab.past initTabState).map
        (fun st => st.flyerBody.filter isFallbackNote) = some []
    ∧ (switchTabB emart Tab.past initTabState).map
        (fun st => st.flyerBody.map nodeSrc) = some (emartCurrentImages.map some) := by
  exact ⟨by decide, by decide⟩

theorem hideModalUI_closed (st : ModalState) : modalClosedUI (hideModalUI st) :=
  ⟨rfl, rfl, rfl, rfl⟩

theorem closeModal_closed (st : ModalState) (h : st.showClass = true) :
    modalClosedUI (closeModal st) := by
  unfold closeModal
  cases st.history.head? with
  | none => exact hideModalUI_closed st
  | some flag =>
      cases flag with
      | false => exact hideModalUI_closed st
      | true =>
          unfold historyBack popstateHandler
          simp only [h, if_true]
          exact hideModalUI_closed _

/-- Claim C4: every close path — Escape while shown, backdrop click on the
modal root, close-button click, and browser back-navigation while shown —
reaches the same final state: `hidden` class on, `show` class off, flyer
body empty, background scroll restored. -/
theorem close_paths_converge (st : ModalState) (h : st.showClass = true) :
    modalClosedUI (escapeKeydown st) ∧ modalClosedUI (backdropClick true st)
    ∧ modalClosedUI (closeButtonClick st) ∧ modalClosedUI (historyBack st) := by
  refine ⟨?_, ?_, ?_, ?_⟩
  · unfold escapeKeydown
    simp only [h, if_true]
    exact closeModal_closed st h
  · unfold backdropClick
    simp only [if_true]
    exact closeModal_closed st h
  · exact closeModal_closed st h
  · unfold historyBack popstateHandler
    simp only [h, if_true]
    exact hideModalUI_closed _

/-- Witness for C4: a state as `openModal` leaves it (shown, body rendered,
scroll locked, modal history entry pushed). -/
theorem close_paths_converge_witness :
    openSampleState.showClass = true
    ∧ (modalClosedUI (escapeKeydown openSampleState)
      ∧ modalClosedUI (backdropClick true openSampleState)
      ∧ modalClosedUI (closeButtonClick openSampleState)
      ∧ modalClosedUI (historyBack openSampleState)) :=
  ⟨rfl, close_paths_converge openSampleState rfl⟩

theorem takeWhile_append_sat {α : Type} (p : α → Bool) (A : List α) (b : α)
    (C : List α) (hA : ∀ a ∈ A, p a = true) (hb : p b = false) :
    (A ++ b :: C).takeWhile p = A := by
  induction A with
  | nil => simp [List.takeWhile_cons, hb]
  | cons x xs ih =>
      simp only [List.cons_append, List.takeWhile_cons,
        hA x (List.mem_cons_self x xs), if_true]
      rw [ih fun a ha => hA a (List.mem_cons_of_mem x ha)]

theorem dropWhile_append_sat {α : Type} (p : α → Bool) (A : List α) (b : α)
    (C : List α) (hA : ∀ a ∈ A, p a = true) (hb : p b = false) :
    (A ++ b :: C).dropWhile p = b :: C := by
  induction A with
  | nil => simp [List.dropWhile_cons, hb]
  | cons x xs ih =>
      simp only [List.cons_append, List.dropWhile_cons,
        hA x (List.mem_cons_self x xs), if_true]
      exact ih fun a ha => hA a (List.mem_cons_of_mem x ha)

theorem matchAt_structured (A B C : List Char)
    (hA : A ≠ []) (hAp : ∀ a ∈ A, a ≠ '(')
    (hB : B ≠ []) (hBp : ∀ b ∈ B, b ≠ ')') :
    matchAt (A ++ '(' :: (B ++ ')' :: C)) = some (A, B) := by
  obtain ⟨a, A', rfl⟩ := List.exists_cons_of_ne_nil hA
  obtain ⟨b, B', rfl⟩ := List.exists_cons_of_ne_nil hB
  have htake1 : ((a :: A') ++ '(' :: ((b :: B') ++ ')' :: C)).takeWhile
      (fun c => c != '(') = a :: A' :=
    takeWhile_append_sat _ _ _ _ (fun x hx => by simpa using hAp x hx) (by simp)
  have hdrop1 : ((a :: A') ++ '(' :: ((b :: B') ++ ')' :: C)).dropWhile
      (fun c => c != '(') = '(' :: ((b :: B') ++ ')' :: C) :=
    dropWhile_append_sat _ _ _ _ (fun x hx => by simpa using hAp x hx) (by simp)
  have htake2 : ((b :: B') ++ ')' :: C).takeWhile (fun c => c != ')') = b :: B' :=
    takeWhile_append_sat _ _ _ _ (fun x hx => by simpa using hBp x hx) (by simp)
  have hdrop2 : ((b :: B') ++ ')' :: C).dropWhile (fun c => c != ')') = ')' :: C :=
    dropWhile_append_sat _ _ _ _ (fun x hx => by simpa using hBp x hx) (by simp)
  simp only [List.cons_append] at htake1 hdrop1 htake2 hdrop2 ⊢
  rw [matchAt, if_neg (hAp a (List.mem_cons_self a A')), hdrop1]
  dsimp only
  rw [htake2, hdrop2]
  dsimp only
  rw [htake1]

theorem jsMatchL_structured (A B C : List Char)
    (hA : A ≠ []) (hAp : ∀ a ∈ A, a ≠ '(')
    (hB : B ≠ []) (hBp : ∀ b ∈ B, b ≠ ')') :
    jsMatchL (A ++ '(' :: (B ++ ')' :: C)) = some (A, B) := by
  obtain ⟨a, A', rfl⟩ := List.exists_cons_of_ne_nil hA
  have hm := matchAt_structured (a :: A') B C (by simp) hAp hB hBp
  simp only [List.cons_append] at hm ⊢
  rw [jsMatchL, hm]

theorem jsMatch_structured (A B C : String)
    (hA : A ≠ "") (hAp : ∀ a ∈ A.data, a ≠ '(')
    (hB : B ≠ "") (hBp : ∀ b ∈ B.data, b ≠ ')') :
    jsMatch (A ++ "(" ++ B ++ ")" ++ C) = some (A, B) := by
  have hA' : A.data ≠ [] := by
    intro h
    exact hA (by cases A; simp_all)
  have hB' : B.data ≠ [] := by
    intro h
    exact hB (by cases B; simp_all)
  have hdata : (A ++ "(" ++ B ++ ")" ++ C).data
      = A.data ++ '(' :: (B.data ++ ')' :: C.data) := by
    simp [String.data_append]
  rw [jsMatch, hdata, jsMatchL_structured A.data B.data C.data hA' hAp hB' hBp]
  rfl

/-- Claim C5: for every name of the form `<A>(<B>)<rest>` — `A` non-empty and
free of '(' (so the regex `([^(]+)\s*\(([^)]+)\)` matches there), `B`
non-empty and free of ')' — both the card renderer and the modal title
produce two distinct spans holding the trimmed `A` and trimmed `B`; and for
every name the regex does not match, both render the raw name unchanged. -/
theorem name_split_rendering (A B C : String)
    (hA : A ≠ "") (hAp : ∀ a ∈ A.data, a ≠ '(')
    (hB : B ≠ "") (hBp : ∀ b ∈ B.data, b ≠ ')') :
    (cardNameHtml (A ++ "(" ++ B ++ ")" ++ C)
        = .spans "name-ko" A.trim "name-en" B.trim
      ∧ modalNameHtml (A ++ "(" ++ B ++ ")" ++ C)
        = .spans "name-ko" A.trim "name-en-modal" B.trim)
    ∧ ∀ name, jsMatch name = none →
        cardNameHtml name = .raw name ∧ modalNameHtml name = .raw name := by
  have hm := jsMatch_structured A B C hA hAp hB hBp
  exact ⟨⟨by simp [cardNameHtml, hm], by simp [modalNameHtml, hm]⟩,
    fun name hn => ⟨by simp [cardNameHtml, hn], by simp [modalNameHtml, hn]⟩⟩

/-- Witness for C5: the embedded record name "이마트 (E-mart)" splits into
the trimmed "이마트" / "E-mart" spans, and a parenthesis-free name renders
verbatim. -/
theorem name_split_rendering_witness :
    (("이마트 " : String) ≠ "" ∧ (∀ a ∈ ("이마트 " : String).data, a ≠ '(')
      ∧ ("E-mart" : String) ≠ "" ∧ (∀ b ∈ ("E-mart" : String).data, b ≠ ')'))
    ∧ ((cardNameHtml ("이마트 " ++ "(" ++ "E-mart" ++ ")" ++ "")
          = .spans "name-ko" ("이마트 ".trim) "name-en" ("E-mart".trim)
        ∧ modalNameHtml ("이마트 " ++ "(" ++ "E-mart" ++ ")" ++ "")
          = .spans "name-ko" ("이마트 ".trim) "name-en-modal" ("E-mart".trim))
      ∧ ∀ name, jsMatch name = none →
          cardNameHtml name = .raw name ∧ modalNameHtml name = .raw name) :=
  ⟨⟨by decide, by decide, by decide, by decide⟩,
    name_split_rendering "이마트 " "E-mart" ""
      (by decide) (by decide) (by decide) (by decide)⟩

end MartFlyers
